import Mathlib

/-!
Verification of the form-entry application (single screen, embedded SQLite
store).  The screen component (`App` in the source) holds two text fields and
an item list, validates input in `saveItem`, and persists through a storage
adapter (`db.ts`: `insertItem`, `fetchItems`).  The component code is embedded
below; the storage adapter, absent from the sources, is modelled from the
specification.  Asynchronous database calls are modelled by explicit success
oracles (`insertOk`, `fetchOk`), and the observable operation order is
recorded in an event trace.
-/

namespace Tutorial

/-- JavaScript whitespace (ECMA `TrimString` / `parseInt` leading-space set):
tab, LF, VT, FF, CR, space, NBSP, BOM, and the Unicode space/line separators. -/
def isJsWhitespace (c : Char) : Bool :=
  c = ' ' || c = '\t' || c = '\n' || c = '\r' ||
  c = Char.ofNat 0x0b || c = Char.ofNat 0x0c ||
  c = Char.ofNat 0xa0 || c = Char.ofNat 0xfeff ||
  c = Char.ofNat 0x2028 || c = Char.ofNat 0x2029 ||
  (0x2000 ≤ c.toNat && c.toNat ≤ 0x200a) ||
  c = Char.ofNat 0x1680 || c = Char.ofNat 0x202f ||
  c = Char.ofNat 0x205f || c = Char.ofNat 0x3000

/-- JavaScript `String.prototype.trim`: strip leading and trailing
whitespace. -/
def jsTrim (s : String) : String :=
  ⟨((s.data.dropWhile isJsWhitespace).reverse.dropWhile isJsWhitespace).reverse⟩

/-- Value of a list of decimal digit characters, most significant first. -/
def digitsToNat (ds : List Char) : Nat :=
  ds.foldl (fun acc c => acc * 10 + (c.toNat - 48)) 0

/-- JavaScript `parseInt(s, 10)`: skip leading whitespace, read an optional
sign, then the longest prefix of decimal digits.  `none` models `NaN` (no
digit found); otherwise the signed value of the digit prefix, trailing
garbage ignored. -/
def parseInt10 (s : String) : Option Int :=
  let cs := s.data.dropWhile isJsWhitespace
  let signAndRest : Int × List Char :=
    match cs with
    | '-' :: t => (-1, t)
    | '+' :: t => (1, t)
    | t => (1, t)
  let ds := signAndRest.2.takeWhile Char.isDigit
  if ds.isEmpty then none
  else some (signAndRest.1 * (digitsToNat ds : Int))

/-- One persisted row of the `items` table: auto-assigned id, name, integer
quantity. -/
structure Item where
  id : Nat
  name : String
  quantity : Int
deriving Repr, DecidableEq

/-- The component state of `App`: the two controlled text inputs and the
displayed list (`useState` hooks `name`, `quantity`, `items`). -/
structure UIState where
  name : String
  quantity : String
  items : List Item
deriving Repr, DecidableEq

/-- Observable events of one user action: issuing the insert, issuing the
fetch, and the two `console.log` error branches. -/
inductive Ev
  | insertCall
  | fetchCall
  | logSaveError
  | logFetchError
deriving Repr, DecidableEq

/-- Modelled from the spec: `insertItem` of the storage adapter (`db.ts`,
not among the sources).  `INSERT INTO items (name, quantity) VALUES (?, ?)`
appends one row with an auto-assigned identifier; it fails if the store
rejects the write, modelled by the success oracle `ok`. -/
def insertItemE (ok : Bool) (db : List Item) (nm : String) (q : Int) :
    Except String (List Item) :=
  if ok then Except.ok (db ++ [⟨db.length + 1, nm, q⟩])
  else Except.error "insert failed"

/-- Modelled from the spec: `fetchItems` of the storage adapter (`db.ts`,
not among the sources).  `SELECT * FROM items` returns all rows in rowid
order, an empty sequence when no rows exist; it fails if the store is
unreachable, modelled by the oracle `reachable`. -/
def fetchItemsE (reachable : Bool) (db : List Item) :
    Except String (List Item) :=
  if reachable then Except.ok db else Except.error "store unreachable"

/-- The component's `loadItems`: await `fetchItems`, on success `setItems`,
on failure log and leave state untouched.  The `try`/`catch` is internal, so
`loadItems` never propagates an error to its caller. -/
def loadItems (st : UIState) (db : List Item) (fetchOk : Bool) :
    UIState × List Ev :=
  match fetchItemsE fetchOk db with
  | Except.ok v => ({ st with items := v }, [Ev.fetchCall])
  | Except.error _ => (st, [Ev.fetchCall, Ev.logFetchError])

/-- Result of one `saveItem` action: the component state, the store contents,
and the trace of issued operations. -/
structure SaveResult where
  st : UIState
  db : List Item
  trace : List Ev
deriving Repr, DecidableEq

/-- The component's `saveItem`: return early when the trimmed name is falsy
(empty) or `parseInt(quantity, 10)` is `NaN`; otherwise insert the untrimmed
name with the parsed quantity, refresh through `loadItems`, then clear both
fields.  The `catch` is reached only when the insert throws, since
`loadItems` swallows its own errors. -/
def saveItem (st : UIState) (db : List Item) (insertOk fetchOk : Bool) :
    SaveResult :=
  if jsTrim st.name = "" then ⟨st, db, []⟩
  else
    match parseInt10 st.quantity with
    | none => ⟨st, db, []⟩
    | some q =>
      match insertItemE insertOk db st.name q with
      | Except.ok db2 =>
        let r := loadItems st db2 fetchOk
        ⟨{ r.1 with name := "", quantity := "" }, db2, Ev.insertCall :: r.2⟩
      | Except.error _ => ⟨st, db, [Ev.insertCall, Ev.logSaveError]⟩

/-- Initial component state: both fields empty, empty list
(`useState('')`, `useState('')`, `useState<Item[]>([])`). -/
def initialState : UIState := ⟨"", "", []⟩

/-- The mount effect: `useEffect(..., [])` runs `loadItems` once on the
initial state. -/
def mount (db : List Item) (fetchOk : Bool) : UIState × List Ev :=
  loadItems initialState db fetchOk

/-- The data-model invariant on a persisted row: the name is non-empty after
trimming (the quantity is an integer by the type of `Item.quantity`). -/
def ItemValid (i : Item) : Prop := jsTrim i.name ≠ ""

/-- C1, counterexample.  The claim says a quantity input of "12abc" is
rejected with no insert attempted; in fact `parseInt("12abc", 10)` is `12`
(not `NaN`), so with a valid name the insert is attempted. -/
theorem C1_counterexample :
    parseInt10 "12abc" = some 12 ∧
    Ev.insertCall ∈ (saveItem ⟨"Apples", "12abc", []⟩ [] true true).trace := by
  decide

/-- C1, amended.  A quantity input of "12abc" passes validation: `parseInt`
with base 10 parses the leading digits, and the item is inserted with
quantity 12; a quantity with no leading numeric prefix, such as "abc", is
rejected with no insert. -/
theorem C1_partial_numeric_accepted :
    (saveItem ⟨"Apples", "12abc", []⟩ [] true true).db =
      [⟨1, "Apples", 12⟩] ∧
    (saveItem ⟨"Apples", "abc", []⟩ [] true true).db = [] ∧
    (saveItem ⟨"Apples", "abc", []⟩ [] true true).trace = [] := by
  decide

/-- C2, counterexample.  The claim says that on any failure of the insert or
the refresh fetch the fields retain their values; but when the insert
succeeds and the fetch fails, `loadItems` swallows the error, so `saveItem`
still clears the name field. -/
theorem C2_counterexample :
    Ev.logFetchError ∈ (saveItem ⟨"Apples", "5", []⟩ [] true false).trace ∧
    ¬ (saveItem ⟨"Apples", "5", []⟩ [] true false).st.name = "Apples" := by
  decide

/-- C2, amended.  If the insert fails, the whole UI state and the store are
unchanged; if the refresh fetch fails, the displayed list retains its
previous contents (but the fields are still cleared when the insert
succeeded). -/
theorem C2_failure_state (st : UIState) (db : List Item) (iOk fOk : Bool) :
    ((saveItem st db false fOk).st = st ∧ (saveItem st db false fOk).db = db) ∧
    (saveItem st db iOk false).st.items = st.items := by
  by_cases h1 : jsTrim st.name = "" <;>
    cases hq : parseInt10 st.quantity <;>
      cases iOk <;>
        simp [saveItem, insertItemE, loadItems, fetchItemsE, h1, hq]

/-- C3.  Every row persisted through `saveItem` satisfies the data-model
invariant: a name that is non-empty after trimming (and, by the type of
`Item.quantity`, an integer quantity); no other exposed operation writes
the store. -/
theorem C3_invariant (st : UIState) (db : List Item) (iOk fOk : Bool)
    (h : ∀ i ∈ db, ItemValid i) :
    ∀ i ∈ (saveItem st db iOk fOk).db, ItemValid i := by
  intro i hi
  unfold saveItem insertItemE at hi
  by_cases h1 : jsTrim st.name = ""
  · rw [if_pos h1] at hi
    exact h i hi
  · rw [if_neg h1] at hi
    cases hq : parseInt10 st.quantity with
    | none =>
      rw [hq] at hi
      exact h i hi
    | some q =>
      rw [hq] at hi
      cases iOk with
      | false =>
        simp only [Bool.false_eq_true, if_false] at hi
        exact h i hi
      | true =>
        simp only [if_true, List.mem_append, List.mem_singleton] at hi
        rcases hi with hL | hR
        · exact h i hL
        · rw [hR]
          exact h1

theorem C3_witness : ItemValid ⟨1, "Apples", 5⟩ :=
  C3_invariant ⟨"Apples", "5", []⟩ [] true true (by simp)
    ⟨1, "Apples", 5⟩ (by decide)

/-- C4.  When the trimmed name is empty, `saveItem` returns before any
database call: the state, the store and the (empty) trace are unchanged. -/
theorem C4_empty_name (st : UIState) (db : List Item) (iOk fOk : Bool)
    (h : jsTrim st.name = "") :
    saveItem st db iOk fOk = ⟨st, db, []⟩ := by
  unfold saveItem
  simp [h]

theorem C4_witness :
    jsTrim "   " = "" ∧
    saveItem ⟨"   ", "5", []⟩ [] true true = ⟨⟨"   ", "5", []⟩, [], []⟩ :=
  ⟨by decide, C4_empty_name ⟨"   ", "5", []⟩ [] true true (by decide)⟩

/-- C5.  When `parseInt(quantity, 10)` is `NaN`, `saveItem` attempts no
insert: no insert event is issued and the store is unchanged. -/
theorem C5_nan_rejected (st : UIState) (db : List Item) (iOk fOk : Bool)
    (h : parseInt10 st.quantity = none) :
    Ev.insertCall ∉ (saveItem st db iOk fOk).trace ∧
    (saveItem st db iOk fOk).db = db := by
  unfold saveItem
  by_cases h1 : jsTrim st.name = "" <;> simp [h1, h]

theorem C5_witness :
    parseInt10 "abc" = none ∧
    (Ev.insertCall ∉ (saveItem ⟨"Apples", "abc", []⟩ [] true true).trace ∧
     (saveItem ⟨"Apples", "abc", []⟩ [] true true).db = []) :=
  ⟨by decide, C5_nan_rejected ⟨"Apples", "abc", []⟩ [] true true (by decide)⟩

/-- C6.  A successful save with name "Apples" and quantity "5" on an empty
store leaves the list containing the item (name "Apples", quantity 5) and
both input fields empty. -/
theorem C6_successful_save :
    (⟨1, "Apples", 5⟩ : Item) ∈
      (saveItem ⟨"Apples", "5", []⟩ [] true true).st.items ∧
    (saveItem ⟨"Apples", "5", []⟩ [] true true).st.name = "" ∧
    (saveItem ⟨"Apples", "5", []⟩ [] true true).st.quantity = "" := by
  decide

/-- C7.  Within one save action the fetch is issued only after the insert
has completed successfully: whenever the trace contains a fetch event, the
insert succeeded, the trace starts with the insert event, and the fetch
event lies strictly after it. -/
theorem C7_insert_before_fetch (st : UIState) (db : List Item)
    (iOk fOk : Bool)
    (h : Ev.fetchCall ∈ (saveItem st db iOk fOk).trace) :
    iOk = true ∧
    (saveItem st db iOk fOk).trace.head? = some Ev.insertCall ∧
    Ev.fetchCall ∈ (saveItem st db iOk fOk).trace.tail := by
  by_cases h1 : jsTrim st.name = ""
  · simp [saveItem, h1] at h
  · cases hq : parseInt10 st.quantity with
    | none => simp [saveItem, h1, hq] at h
    | some q =>
      cases iOk with
      | false =>
        simp [saveItem, insertItemE, h1, hq] at h
      | true =>
        cases fOk <;>
          simp [saveItem, insertItemE, loadItems, fetchItemsE, h1, hq]

theorem C7_witness :
    Ev.fetchCall ∈ (saveItem ⟨"Apples", "5", []⟩ [] true true).trace ∧
    (true = true ∧
     (saveItem ⟨"Apples", "5", []⟩ [] true true).trace.head? =
       some Ev.insertCall ∧
     Ev.fetchCall ∈ (saveItem ⟨"Apples", "5", []⟩ [] true true).trace.tail) :=
  ⟨by decide, C7_insert_before_fetch ⟨"Apples", "5", []⟩ [] true true
    (by decide)⟩

/-- C8.  The mount effect issues exactly one fetch whatever the outcome;
when that fetch fails the failure is logged and the displayed list stays at
its initial empty value. -/
theorem C8_mount_once (db : List Item) :
    (mount db true).2.count Ev.fetchCall = 1 ∧
    (mount db false).2.count Ev.fetchCall = 1 ∧
    (mount db false).1.items = [] ∧
    Ev.logFetchError ∈ (mount db false).2 := by
  unfold mount loadItems fetchItemsE initialState
  simp [List.count_cons]

/-- C9.  Fetching from an empty reachable store returns the empty sequence,
not an error. -/
theorem C9_fetch_empty : fetchItemsE true [] = Except.ok [] := rfl

/-- C10.  On a successful save the row appended to the store carries the
exact text the user typed as the name — untrimmed, whitespace included —
and the base-10 `parseInt` of the quantity text. -/
theorem C10_exact_values (st : UIState) (db : List Item) (fOk : Bool)
    (q : Int) (h1 : ¬ jsTrim st.name = "") (h2 : parseInt10 st.quantity = some q) :
    (saveItem st db true fOk).db = db ++ [⟨db.length + 1, st.name, q⟩] := by
  unfold saveItem insertItemE
  simp [h1, h2]

theorem C10_witness :
    ¬ jsTrim " Apples " = "" ∧
    parseInt10 "5" = some 5 ∧
    (saveItem ⟨" Apples ", "5", []⟩ [] true true).db =
      ([] : List Item) ++ [⟨([] : List Item).length + 1, " Apples ", 5⟩] :=
  ⟨by decide, by decide,
    C10_exact_values ⟨" Apples ", "5", []⟩ [] true 5 (by decide) (by decide)⟩

end Tutorial
